import Mathlib

/-!
Verification of the portalocker advisory file-locking library.

The embedding follows the source files:
  portalocker/portalocker.py  (platform lock primitives: lock, unlock)
  portalocker/exceptions.py   (error taxonomy)
and, where a component is absent from the sources (constants.py with the
LockFlags bitset, utils.py with the simple Lock, the reentrant RLock and the
retry/timeout acquisition engine), the definitions are modelled from the
specification and say so in their doc comments.
-/

namespace Portalocker

/-- posix fcntl constant LOCK_SH (Linux value), external library constant. -/
def LOCK_SH : Nat := 1

/-- posix fcntl constant LOCK_EX (Linux value), external library constant. -/
def LOCK_EX : Nat := 2

/-- posix fcntl constant LOCK_NB (Linux value), external library constant. -/
def LOCK_NB : Nat := 4

/-- posix fcntl constant LOCK_UN (Linux value), external library constant. -/
def LOCK_UN : Nat := 8

/-- errno EAGAIN (Linux value), external library constant. -/
def EAGAIN : Nat := 11

/-- errno EACCES (Linux value), external library constant. -/
def EACCES : Nat := 13

/-- win32con constant LOCKFILE_FAIL_IMMEDIATELY, external library constant. -/
def LOCKFILE_FAIL_IMMEDIATELY : Nat := 1

/-- win32con constant LOCKFILE_EXCLUSIVE_LOCK, external library constant. -/
def LOCKFILE_EXCLUSIVE_LOCK : Nat := 2

/-- winerror constant ERROR_LOCK_VIOLATION, external library constant. -/
def ERROR_LOCK_VIOLATION : Nat := 33

/-- winerror constant ERROR_NOT_LOCKED, external library constant. -/
def ERROR_NOT_LOCKED : Nat := 158

namespace LockFlags

/-- Modelled from the spec: constants.py is absent from src.  The spec (section
3) describes LockFlags as a bitset of SHARED, EXCLUSIVE and NON_BLOCKING mapped
to the platform flag values; the posix fcntl values are used here. -/
def SHARED : Nat := LOCK_SH

/-- Modelled from the spec: the EXCLUSIVE bit of the LockFlags bitset. -/
def EXCLUSIVE : Nat := LOCK_EX

/-- Modelled from the spec: the NON_BLOCKING bit of the LockFlags bitset. -/
def NON_BLOCKING : Nat := LOCK_NB

end LockFlags

/-- A handle argument as passed to lock and unlock: either a file object
(exposing a fileno method) or a raw integer file descriptor. -/
inductive Handle where
  | fileObj (fd : Nat)
  | rawFd (fd : Nat)
deriving DecidableEq, Repr

/-- The Python-level errors the embedded functions can raise: AttributeError
(attribute access on an object lacking it), OSError with an errno,
pywintypes error with a winerror, and LockException (the LockError alias)
carrying the optional offending handle in its fh field. -/
inductive PyErr where
  | attributeError
  | osError (errno : Nat)
  | winError (winerror : Nat)
  | lockException (fh : Option Handle)
deriving DecidableEq, Repr

/-- Accessing the fileno method of the handle: a file object yields its
descriptor; a raw integer has no fileno attribute, so the access raises
AttributeError. -/
def fileno : Handle → Except PyErr Nat
  | .fileObj fd => .ok fd
  | .rawFd _ => .error .attributeError

/-- portalocker.py lines 65 to 71 (posix lock): the fcntl operation word built
from the flags.  LOCK_EX when the EXCLUSIVE bit is set, LOCK_SH otherwise;
LOCK_NB or-ed in when the NON_BLOCKING bit is set. -/
def posixLockingFlags (flags : Nat) : Nat :=
  let base := if flags &&& LockFlags.EXCLUSIVE ≠ 0 then LOCK_EX else LOCK_SH
  if flags &&& LockFlags.NON_BLOCKING ≠ 0 then base ||| LOCK_NB else base

/-- portalocker.py lines 64 to 77 (posix lock).  The fcntl.flock primitive is
passed in as a function from descriptor and operation word to a result; an
OSError whose errno is EACCES or EAGAIN becomes LockException carrying the
handle, any other OSError propagates unchanged. -/
def posixLock (flock : Nat → Nat → Except Nat Unit) (file : Handle)
    (flags : Nat) : Except PyErr Unit := do
  let fd ← fileno file
  match flock fd (posixLockingFlags flags) with
  | .ok _ => .ok ()
  | .error errno =>
    if errno = EACCES ∨ errno = EAGAIN then
      .error (.lockException (some file))
    else
      .error (.osError errno)

/-- portalocker.py lines 79 to 80 (posix unlock): fcntl.flock with LOCK_UN,
any error propagating unchanged. -/
def posixUnlock (flock : Nat → Nat → Except Nat Unit) (file : Handle) :
    Except PyErr Unit := do
  let fd ← fileno file
  match flock fd LOCK_UN with
  | .ok _ => .ok ()
  | .error errno => .error (.osError errno)

/-- portalocker.py lines 30 to 36 (nt lock): the LockFileEx lock type word
built from the flags.  LOCKFILE_EXCLUSIVE_LOCK when the EXCLUSIVE bit is set,
0 otherwise; LOCKFILE_FAIL_IMMEDIATELY or-ed in when NON_BLOCKING is set. -/
def ntLockType (flags : Nat) : Nat :=
  let lockType :=
    if flags &&& LockFlags.EXCLUSIVE ≠ 0 then LOCKFILE_EXCLUSIVE_LOCK else 0
  if flags &&& LockFlags.NON_BLOCKING ≠ 0 then
    lockType ||| LOCKFILE_FAIL_IMMEDIATELY
  else lockType

/-- portalocker.py lines 29 to 45 (nt lock).  The win32file.LockFileEx
primitive takes the os file handle (from msvcrt.get_osfhandle on the
descriptor) and the lock type word; a pywintypes error whose winerror is
ERROR_LOCK_VIOLATION becomes LockException carrying the handle, any other
error propagates unchanged. -/
def ntLock (lockFileEx : Nat → Nat → Except Nat Unit) (getOsfhandle : Nat → Nat)
    (file : Handle) (flags : Nat) : Except PyErr Unit := do
  let fd ← fileno file
  match lockFileEx (getOsfhandle fd) (ntLockType flags) with
  | .ok _ => .ok ()
  | .error werr =>
    if werr = ERROR_LOCK_VIOLATION then
      .error (.lockException (some file))
    else
      .error (.winError werr)

/-- portalocker.py lines 47 to 56 (nt unlock).  win32file.UnlockFileEx on the
os file handle; an ERROR_NOT_LOCKED error is swallowed (the file was not
locked), any other error propagates unchanged. -/
def ntUnlock (unlockFileEx : Nat → Except Nat Unit) (getOsfhandle : Nat → Nat)
    (file : Handle) : Except PyErr Unit := do
  let fd ← fileno file
  match unlockFileEx (getOsfhandle fd) with
  | .ok _ => .ok ()
  | .error werr =>
    if werr = ERROR_NOT_LOCKED then .ok ()
    else .error (.winError werr)

/-- The OS advisory-lock table for one file: the descriptors (posix) or os
file handles (nt) currently holding a lock, each marked exclusive or shared.
Models the external collaborator of spec section 4.2. -/
structure OSLockState where
  held : List (Nat × Bool)
deriving DecidableEq, Repr

/-- Whether a request on descriptor fd for a lock (exclusive when wantEx) is
in conflict with a lock held by another descriptor: any other holder blocks an
exclusive request, and an exclusive holder blocks any request. -/
def osConflicts (st : OSLockState) (fd : Nat) (wantEx : Bool) : Bool :=
  st.held.any (fun p => p.1 != fd && (wantEx || p.2))

/-- Model of the OS flock primitive per the spec contract (section 4.2) and
the flock manual: LOCK_UN always succeeds and drops any lock held by the
descriptor; a conflicting request with LOCK_NB fails with EAGAIN; an
unconflicting request (re)grants the lock.  A conflicting request without
LOCK_NB would block until the holder releases; the engine never issues one
(section 4.2), and it is modelled as the eventual grant. -/
def osFlock (st : OSLockState) (fd : Nat) (op : Nat) : Except Nat OSLockState :=
  if op &&& LOCK_UN ≠ 0 then
    .ok ⟨st.held.filter (fun p => p.1 != fd)⟩
  else
    let wantEx : Bool := decide (op &&& LOCK_EX ≠ 0)
    if osConflicts st fd wantEx && decide (op &&& LOCK_NB ≠ 0) then
      .error EAGAIN
    else
      .ok ⟨(fd, wantEx) :: st.held.filter (fun p => p.1 != fd)⟩

/-- The flock primitive on a fixed OS state, as passed to posixLock and
posixUnlock (the state change is dropped; only success or errno matters to
the wrapper). -/
def osFlockCall (st : OSLockState) (fd : Nat) (op : Nat) : Except Nat Unit :=
  (osFlock st fd op).map (fun _ => ())

/-- Model of the win32file.UnlockFileEx primitive per its documentation: it
fails with ERROR_NOT_LOCKED when the handle holds no lock, and releases the
lock otherwise. -/
def osUnlockFileEx (st : OSLockState) (h : Nat) : Except Nat OSLockState :=
  if st.held.any (fun p => p.1 == h) then
    .ok ⟨st.held.filter (fun p => p.1 != h)⟩
  else
    .error ERROR_NOT_LOCKED

/-- The UnlockFileEx primitive on a fixed OS state, as passed to ntUnlock. -/
def osUnlockFileExCall (st : OSLockState) (h : Nat) : Except Nat Unit :=
  (osUnlockFileEx st h).map (fun _ => ())

/-- The classes of exceptions.py together with the built-in Exception they
derive from. -/
inductive ExcClass where
  | exception
  | baseLockError
  | lockError
  | alreadyLocked
  | fileToLarge
deriving DecidableEq, Repr

/-- The base class of each class in exceptions.py, read off the class
declarations: BaseLockError(Exception), LockError(BaseLockError),
AlreadyLocked(LockError), FileToLarge(LockError). -/
def superclass : ExcClass → Option ExcClass
  | .exception => none
  | .baseLockError => some .exception
  | .lockError => some .baseLockError
  | .alreadyLocked => some .lockError
  | .fileToLarge => some .lockError

/-- The attribute state of an exception instance after construction: the
positional args forwarded to the built-in Exception, the fh attribute, and
the message attribute (absent on BaseLockError). -/
structure ExcState (α : Type) where
  args : List α
  fh : Option Handle
  message : Option String
deriving DecidableEq, Repr

/-- exceptions.py lines 7 to 14, BaseLockError init: stores fh, forwards only
the positional args to Exception, and drops every other keyword argument. -/
def baseLockErrorInit (args : List α) (fh : Option Handle)
    (kwargs : List (String × α)) : ExcState α :=
  { args := args, fh := fh, message := none }

/-- exceptions.py lines 18 to 25, LockError init: delegates to BaseLockError
(forwarding args, fh and the remaining keyword arguments) and then sets the
message attribute. -/
def lockErrorInit (args : List α) (fh : Option Handle)
    (kwargs : List (String × α)) : ExcState α :=
  { baseLockErrorInit args fh kwargs with message := some "Failed to acquire lock" }

/-- exceptions.py lines 29 to 36, AlreadyLocked init: delegates to LockError
and then overwrites the message attribute. -/
def alreadyLockedInit (args : List α) (fh : Option Handle)
    (kwargs : List (String × α)) : ExcState α :=
  { lockErrorInit args fh kwargs with message := some "File is already locked" }

/-- exceptions.py lines 40 to 47, FileToLarge init: delegates to LockError
and then overwrites the message attribute. -/
def fileToLargeInit (args : List α) (fh : Option Handle)
    (kwargs : List (String × α)) : ExcState α :=
  { lockErrorInit args fh kwargs with message := some "File is too large to lock" }

/-- The primitive locking mechanisms a posix caller can bind to the
module-level LOCKER hook (portalocker.py lines 16 to 18 and 62). -/
inductive Mechanism where
  | flock
  | lockf
deriving DecidableEq, Repr

/-- portalocker.py lines 62 to 77 with the module-level LOCKER binding made
explicit: the body of the posix lock function at line 73 invokes fcntl.flock
directly and never reads LOCKER, so the call is posixLock applied to the
flock primitive, whatever locker is bound to. -/
def posixLockWithLocker (locker : Mechanism)
    (flock lockf : Nat → Nat → Except Nat Unit) (file : Handle) (flags : Nat) :
    Except PyErr Unit :=
  posixLock flock file flags

/-- The state of the simple, non-reentrant Lock: the file handle it holds
open, when any.  Modelled from the spec: utils.py, where the simple Lock
lives, is absent from src (section 4.4 of the spec describes it). -/
structure SimpleLockState where
  fh : Option Nat
deriving DecidableEq, Repr

/-- Modelled from the spec: a successful acquire of the simple Lock leaves it
owning the opened, locked handle (spec section 4.4). -/
def simpleLockAcquire (fd : Nat) (s : SimpleLockState) : SimpleLockState :=
  ⟨some fd⟩

/-- Modelled from the spec: release of the simple Lock unlocks and closes the
held handle when one is held and is a no-op on a lock that holds none; it
never raises (spec sections 4.4 and 8: a second release call is a no-op). -/
def simpleLockRelease (s : SimpleLockState) : Except PyErr SimpleLockState :=
  match s.fh with
  | some _ => .ok ⟨none⟩
  | none => .ok ⟨none⟩

/-- The state of the reentrant counted lock: the depth counter together with
whether the underlying file handle is open and whether it is locked.
Modelled from the spec: utils.py, where the RLock lives, is absent from src
(sections 3 and 4.5 of the spec describe it). -/
structure RLockState where
  depth : Nat
  fhOpen : Bool
  fhLocked : Bool
deriving DecidableEq, Repr

/-- Modelled from the spec: the reentrant lock is created unlocked with
depth 0 (spec section 4.5). -/
def rlockInit : RLockState := ⟨0, false, false⟩

/-- Modelled from the spec: acquire at depth 0 performs the real acquisition,
opening and locking the handle and setting depth 1; acquire at depth n ≥ 1 is
a pure counter increment with no primitive call (spec section 4.5). -/
def rlockAcquire (s : RLockState) : RLockState :=
  if s.depth = 0 then ⟨1, true, true⟩
  else ⟨s.depth + 1, s.fhOpen, s.fhLocked⟩

/-- Modelled from the spec: release at depth 0 raises LockError; release at
depth 1 performs the real release, unlocking and closing the handle; release
at depth n ≥ 2 is a pure counter decrement (spec section 4.5). -/
def rlockRelease (s : RLockState) : Except PyErr RLockState :=
  if s.depth = 0 then .error (.lockException none)
  else if s.depth = 1 then .ok ⟨0, false, false⟩
  else .ok ⟨s.depth - 1, s.fhOpen, s.fhLocked⟩

/-- n successive acquires of the reentrant lock. -/
def rlockAcquireN : Nat → RLockState → RLockState
  | 0, s => s
  | n + 1, s => rlockAcquireN n (rlockAcquire s)

/-- n successive releases of the reentrant lock, stopping at the first
error. -/
def rlockReleaseN : Nat → RLockState → Except PyErr RLockState
  | 0, s => .ok s
  | n + 1, s => (rlockRelease s).bind (rlockReleaseN n)

/-- The outcome of a run of the acquisition engine. -/
inductive AcqOutcome where
  | acquired
  | alreadyLocked
  | timedOut
deriving DecidableEq, Repr

/-- The observable trace of a run of the acquisition engine: how many
primitive attempts it made, how many times it slept, and the outcome. -/
structure AcqTrace where
  attempts : Nat
  sleeps : Nat
  outcome : AcqOutcome
deriving DecidableEq, Repr

/-- Modelled from the spec: utils.py, where the retry/timeout acquisition
engine lives, is absent from src.  Spec section 4.3: the engine makes a
non-blocking attempt (prim i tells whether attempt i succeeds); on success it
returns; on contention with fail_when_locked it raises AlreadyLocked at once;
otherwise it sleeps check_interval and retries while the timeout allows and
raises LockError (timeout exhausted) when it does not.  The budget argument
is the number of check_interval sleeps the timeout still allows; timeout 0
gives budget 0, hence exactly one attempt and no sleep. -/
def engineRun (prim : Nat → Bool) (failWhenLocked : Bool) :
    Nat → Nat → AcqTrace
  | i, 0 =>
    if prim i then ⟨1, 0, .acquired⟩
    else if failWhenLocked then ⟨1, 0, .alreadyLocked⟩
    else ⟨1, 0, .timedOut⟩
  | i, b + 1 =>
    if prim i then ⟨1, 0, .acquired⟩
    else if failWhenLocked then ⟨1, 0, .alreadyLocked⟩
    else
      let t := engineRun prim failWhenLocked (i + 1) b
      ⟨t.attempts + 1, t.sleeps + 1, t.outcome⟩

/-- Modelled from the spec: the number of check_interval sleeps that fit in
the timeout; a timeout of 0 allows none (spec section 4.3, edge case 3). -/
def sleepBudget (timeout checkInterval : ℚ) : Nat :=
  (⌈timeout / checkInterval⌉).toNat

/-- Modelled from the spec: a full engine run for a given timeout and check
interval (spec section 4.3). -/
def acquireEngine (prim : Nat → Bool) (failWhenLocked : Bool)
    (timeout checkInterval : ℚ) : AcqTrace :=
  engineRun prim failWhenLocked 0 (sleepBudget timeout checkInterval)

/-! Reduction lemmas: lock and unlock applied to a file object reduce to
their body on the object's descriptor. -/

theorem posixLock_fileObj (flock : Nat → Nat → Except Nat Unit) (fd flags : Nat) :
    posixLock flock (.fileObj fd) flags =
      match flock fd (posixLockingFlags flags) with
      | .ok _ => .ok ()
      | .error errno =>
        if errno = EACCES ∨ errno = EAGAIN then
          .error (.lockException (some (.fileObj fd)))
        else .error (.osError errno) := rfl

theorem ntLock_fileObj (lockFileEx : Nat → Nat → Except Nat Unit)
    (getOsfhandle : Nat → Nat) (fd flags : Nat) :
    ntLock lockFileEx getOsfhandle (.fileObj fd) flags =
      match lockFileEx (getOsfhandle fd) (ntLockType flags) with
      | .ok _ => .ok ()
      | .error werr =>
        if werr = ERROR_LOCK_VIOLATION then
          .error (.lockException (some (.fileObj fd)))
        else .error (.winError werr) := rfl

theorem posixUnlock_fileObj (flock : Nat → Nat → Except Nat Unit) (fd : Nat) :
    posixUnlock flock (.fileObj fd) =
      match flock fd LOCK_UN with
      | .ok _ => .ok ()
      | .error errno => .error (.osError errno) := rfl

theorem ntUnlock_fileObj (unlockFileEx : Nat → Except Nat Unit)
    (getOsfhandle : Nat → Nat) (fd : Nat) :
    ntUnlock unlockFileEx getOsfhandle (.fileObj fd) =
      match unlockFileEx (getOsfhandle fd) with
      | .ok _ => .ok ()
      | .error werr =>
        if werr = ERROR_NOT_LOCKED then .ok () else .error (.winError werr) := rfl

theorem posixLock_error (flock : Nat → Nat → Except Nat Unit)
    (fd flags errno : Nat)
    (h : flock fd (posixLockingFlags flags) = .error errno) :
    posixLock flock (.fileObj fd) flags =
      if errno = EACCES ∨ errno = EAGAIN then
        .error (.lockException (some (.fileObj fd)))
      else .error (.osError errno) := by
  rw [posixLock_fileObj, h]

theorem ntLock_error (lockFileEx : Nat → Nat → Except Nat Unit)
    (getOsfhandle : Nat → Nat) (fd flags werr : Nat)
    (h : lockFileEx (getOsfhandle fd) (ntLockType flags) = .error werr) :
    ntLock lockFileEx getOsfhandle (.fileObj fd) flags =
      if werr = ERROR_LOCK_VIOLATION then
        .error (.lockException (some (.fileObj fd)))
      else .error (.winError werr) := by
  rw [ntLock_fileObj, h]

theorem posixUnlock_ok (flock : Nat → Nat → Except Nat Unit) (fd : Nat)
    (h : flock fd LOCK_UN = .ok ()) :
    posixUnlock flock (.fileObj fd) = .ok () := by
  rw [posixUnlock_fileObj, h]

theorem ntUnlock_error (unlockFileEx : Nat → Except Nat Unit)
    (getOsfhandle : Nat → Nat) (fd werr : Nat)
    (h : unlockFileEx (getOsfhandle fd) = .error werr) :
    ntUnlock unlockFileEx getOsfhandle (.fileObj fd) =
      if werr = ERROR_NOT_LOCKED then .ok () else .error (.winError werr) := by
  rw [ntUnlock_fileObj, h]

/-! Helper lemmas on the flag translation. -/

theorem posixLockingFlags_and_un (flags : Nat) :
    posixLockingFlags flags &&& LOCK_UN = 0 := by
  unfold posixLockingFlags
  by_cases hnb : flags &&& LockFlags.NON_BLOCKING ≠ 0
  · rw [if_pos hnb]
    by_cases hex : flags &&& LockFlags.EXCLUSIVE ≠ 0
    · rw [if_pos hex]; decide
    · rw [if_neg hex]; decide
  · rw [if_neg hnb]
    by_cases hex : flags &&& LockFlags.EXCLUSIVE ≠ 0
    · rw [if_pos hex]; decide
    · rw [if_neg hex]; decide

theorem posixLockingFlags_and_ex (flags : Nat) :
    (posixLockingFlags flags &&& LOCK_EX ≠ 0) ↔
      (flags &&& LockFlags.EXCLUSIVE ≠ 0) := by
  unfold posixLockingFlags
  by_cases hnb : flags &&& LockFlags.NON_BLOCKING ≠ 0
  · rw [if_pos hnb]
    by_cases hex : flags &&& LockFlags.EXCLUSIVE ≠ 0
    · rw [if_pos hex]; exact iff_of_true (by decide) hex
    · rw [if_neg hex]; exact iff_of_false (by decide) hex
  · rw [if_neg hnb]
    by_cases hex : flags &&& LockFlags.EXCLUSIVE ≠ 0
    · rw [if_pos hex]; exact iff_of_true (by decide) hex
    · rw [if_neg hex]; exact iff_of_false (by decide) hex

theorem posixLockingFlags_and_nb (flags : Nat)
    (h : flags &&& LockFlags.NON_BLOCKING ≠ 0) :
    posixLockingFlags flags &&& LOCK_NB ≠ 0 := by
  unfold posixLockingFlags
  rw [if_pos h]
  by_cases hex : flags &&& LockFlags.EXCLUSIVE ≠ 0
  · rw [if_pos hex]; decide
  · rw [if_neg hex]; decide

/-- C1: the claim states that when neither the SHARED nor the EXCLUSIVE bit is
set, the lock is placed in exclusive mode.  This fails on the code: at
flags = NON_BLOCKING (which has neither bit) the posix branch passes
LOCK_SH (shared) rather than LOCK_EX to fcntl.flock, and the nt branch omits
LOCKFILE_EXCLUSIVE_LOCK from the lock type. -/
theorem C1_claim_counterexample :
    LockFlags.NON_BLOCKING &&& LockFlags.SHARED = 0 ∧
    LockFlags.NON_BLOCKING &&& LockFlags.EXCLUSIVE = 0 ∧
    posixLockingFlags LockFlags.NON_BLOCKING &&& LOCK_EX = 0 ∧
    posixLockingFlags LockFlags.NON_BLOCKING &&& LOCK_SH ≠ 0 ∧
    ntLockType LockFlags.NON_BLOCKING &&& LOCKFILE_EXCLUSIVE_LOCK = 0 := by
  decide

/-- C1 (amended): for every flags value in which neither the SHARED nor the
EXCLUSIVE bit is set, the lock is placed in shared mode: the posix branch
passes LOCK_SH (and not LOCK_EX) to the primitive, and the nt branch omits
LOCKFILE_EXCLUSIVE_LOCK (absence of an explicit mode intent defaults to
SHARED). -/
theorem C1_default_mode_is_shared (flags : Nat)
    (hsh : flags &&& LockFlags.SHARED = 0)
    (hex : flags &&& LockFlags.EXCLUSIVE = 0) :
    posixLockingFlags flags &&& LOCK_EX = 0 ∧
    posixLockingFlags flags &&& LOCK_SH ≠ 0 ∧
    ntLockType flags &&& LOCKFILE_EXCLUSIVE_LOCK = 0 := by
  unfold posixLockingFlags ntLockType
  have hex' : ¬(flags &&& LockFlags.EXCLUSIVE ≠ 0) := by simp [hex]
  by_cases hnb : flags &&& LockFlags.NON_BLOCKING ≠ 0
  · rw [if_pos hnb, if_pos hnb, if_neg hex', if_neg hex']
    decide
  · rw [if_neg hnb, if_neg hnb, if_neg hex', if_neg hex']
    decide

/-- C1 witness: the amended theorem applied at flags = NON_BLOCKING. -/
theorem C1_default_mode_is_shared_witness :
    LockFlags.NON_BLOCKING &&& LockFlags.SHARED = 0 ∧
    LockFlags.NON_BLOCKING &&& LockFlags.EXCLUSIVE = 0 ∧
    (posixLockingFlags LockFlags.NON_BLOCKING &&& LOCK_EX = 0 ∧
     posixLockingFlags LockFlags.NON_BLOCKING &&& LOCK_SH ≠ 0 ∧
     ntLockType LockFlags.NON_BLOCKING &&& LOCKFILE_EXCLUSIVE_LOCK = 0) :=
  ⟨by decide, by decide,
    C1_default_mode_is_shared LockFlags.NON_BLOCKING (by decide) (by decide)⟩

/-- C10: lock and unlock require the handle to expose a fileno method: for
every raw integer descriptor passed as the handle, the call fails with
AttributeError before the locking primitive is consulted (the result is the
same for every primitive), on both posix and nt. -/
theorem C10_fileno_required (fd flags : Nat)
    (flock lockFileEx : Nat → Nat → Except Nat Unit)
    (unlockFileEx : Nat → Except Nat Unit) (getOsfhandle : Nat → Nat) :
    posixLock flock (.rawFd fd) flags = .error .attributeError ∧
    posixUnlock flock (.rawFd fd) = .error .attributeError ∧
    ntLock lockFileEx getOsfhandle (.rawFd fd) flags = .error .attributeError ∧
    ntUnlock unlockFileEx getOsfhandle (.rawFd fd) = .error .attributeError :=
  ⟨rfl, rfl, rfl, rfl⟩

/-- C2: with NON_BLOCKING set and the handle contended by another holder in
the OS lock table, lock fails at once with LockException carrying the handle
in fh (first conjunct, against the OS flock model); and for every primitive
error that does not indicate contention — errno other than EACCES and EAGAIN
on posix, winerror other than ERROR_LOCK_VIOLATION on nt — the underlying
error propagates unchanged and is never turned into a lock-failed error
(remaining conjuncts, for an arbitrary primitive). -/
theorem C2_contention_and_error_propagation (fd flags : Nat)
    (flock lockFileEx : Nat → Nat → Except Nat Unit) (getOsfhandle : Nat → Nat) :
    (∀ st : OSLockState,
      flags &&& LockFlags.NON_BLOCKING ≠ 0 →
      osConflicts st fd (decide (flags &&& LockFlags.EXCLUSIVE ≠ 0)) = true →
      posixLock (osFlockCall st) (.fileObj fd) flags =
        .error (.lockException (some (.fileObj fd)))) ∧
    (∀ errno, flock fd (posixLockingFlags flags) = .error errno →
      ((errno = EACCES ∨ errno = EAGAIN) →
        posixLock flock (.fileObj fd) flags =
          .error (.lockException (some (.fileObj fd)))) ∧
      (errno ≠ EACCES → errno ≠ EAGAIN →
        posixLock flock (.fileObj fd) flags = .error (.osError errno))) ∧
    (∀ werr, lockFileEx (getOsfhandle fd) (ntLockType flags) = .error werr →
      (werr = ERROR_LOCK_VIOLATION →
        ntLock lockFileEx getOsfhandle (.fileObj fd) flags =
          .error (.lockException (some (.fileObj fd)))) ∧
      (werr ≠ ERROR_LOCK_VIOLATION →
        ntLock lockFileEx getOsfhandle (.fileObj fd) flags =
          .error (.winError werr))) := by
  refine ⟨?_, ?_, ?_⟩
  · intro st hnb hconf
    have hcall : osFlockCall st fd (posixLockingFlags flags) = .error EAGAIN := by
      unfold osFlockCall osFlock
      rw [if_neg (by simp [posixLockingFlags_and_un flags])]
      have hwant :
          decide (posixLockingFlags flags &&& LOCK_EX ≠ 0) =
            decide (flags &&& LockFlags.EXCLUSIVE ≠ 0) :=
        decide_eq_decide.mpr (posixLockingFlags_and_ex flags)
      rw [if_pos ?_]
      · rfl
      · rw [hwant, hconf, decide_eq_true (posixLockingFlags_and_nb flags hnb)]
        rfl
    rw [posixLock_error _ _ _ _ hcall, if_pos (Or.inr rfl)]
  · intro errno herr
    constructor
    · intro hc
      rw [posixLock_error _ _ _ _ herr, if_pos hc]
    · intro h1 h2
      rw [posixLock_error _ _ _ _ herr, if_neg (by simp [h1, h2])]
  · intro werr herr
    constructor
    · intro hc
      rw [ntLock_error _ _ _ _ _ herr, if_pos hc]
    · intro h1
      rw [ntLock_error _ _ _ _ _ herr, if_neg h1]

/-- C2 witness: the theorem applied at descriptor 3 and
flags = EXCLUSIVE with NON_BLOCKING (value 6), with an OS table in which
descriptor 7 holds an exclusive lock, and with primitives failing with errno 5
and winerror 5 (neither a contention code). -/
theorem C2_witness :
    posixLock (osFlockCall ⟨[(7, true)]⟩) (.fileObj 3) 6 =
      .error (.lockException (some (.fileObj 3))) ∧
    posixLock (fun _ _ => .error 5) (.fileObj 3) 6 = .error (.osError 5) ∧
    ntLock (fun _ _ => .error ERROR_LOCK_VIOLATION) id (.fileObj 3) 6 =
      .error (.lockException (some (.fileObj 3))) ∧
    ntLock (fun _ _ => .error 5) id (.fileObj 3) 6 = .error (.winError 5) := by
  refine ⟨?_, ?_, ?_, ?_⟩
  · exact (C2_contention_and_error_propagation 3 6 (fun _ _ => .error 5)
      (fun _ _ => .error 5) id).1 ⟨[(7, true)]⟩ (by decide) (by decide)
  · exact ((C2_contention_and_error_propagation 3 6 (fun _ _ => .error 5)
      (fun _ _ => .error 5) id).2.1 5 rfl).2 (by decide) (by decide)
  · exact ((C2_contention_and_error_propagation 3 6
      (fun _ _ => .error ERROR_LOCK_VIOLATION)
      (fun _ _ => .error ERROR_LOCK_VIOLATION) id).2.2
      ERROR_LOCK_VIOLATION rfl).1 rfl
  · exact ((C2_contention_and_error_propagation 3 6 (fun _ _ => .error 5)
      (fun _ _ => .error 5) id).2.2 5 rfl).2 (by decide)

/-- C6: releasing a handle that holds no lock is a no-op at the primitive
layer, on both posix (flock with LOCK_UN succeeds unconditionally) and nt
(UnlockFileEx fails with ERROR_NOT_LOCKED, which unlock swallows). -/
theorem C6_unlock_unheld_is_noop (st : OSLockState) (fd : Nat)
    (getOsfhandle : Nat → Nat)
    (hposix : st.held.all (fun p => p.1 != fd) = true)
    (hnt : st.held.all (fun p => p.1 != getOsfhandle fd) = true) :
    posixUnlock (osFlockCall st) (.fileObj fd) = .ok () ∧
    ntUnlock (osUnlockFileExCall st) getOsfhandle (.fileObj fd) = .ok () := by
  constructor
  · refine posixUnlock_ok _ _ ?_
    unfold osFlockCall osFlock
    rw [if_pos (by decide)]
    rfl
  · have hany : st.held.any (fun p => p.1 == getOsfhandle fd) = false := by
      rw [Bool.eq_false_iff]
      intro hc
      obtain ⟨x, hx, hpx⟩ := List.any_eq_true.mp hc
      have hall := List.all_eq_true.mp hnt x hx
      rw [bne_iff_ne] at hall
      exact hall (by simpa using hpx)
    have hcall : osUnlockFileExCall st (getOsfhandle fd) =
        .error ERROR_NOT_LOCKED := by
      unfold osUnlockFileExCall osUnlockFileEx
      rw [if_neg (by simp [hany])]
      rfl
    rw [ntUnlock_error _ _ _ _ hcall, if_pos rfl]

/-- C6 witness: the theorem applied to the empty OS lock table at
descriptor 0. -/
theorem C6_witness :
    posixUnlock (osFlockCall ⟨[]⟩) (.fileObj 0) = .ok () ∧
    ntUnlock (osUnlockFileExCall ⟨[]⟩) id (.fileObj 0) = .ok () :=
  C6_unlock_unheld_is_noop ⟨[]⟩ 0 id rfl rfl

/-- C3: the error taxonomy forms the hierarchy BaseLockError → LockError →
(AlreadyLocked, FileToLarge); every constructed instance stores the supplied
handle in its fh attribute (and an omitted handle defaults to none), and the
message attribute is exactly the stated string for each of LockError,
AlreadyLocked and FileToLarge. -/
theorem C3_error_taxonomy (α : Type) (args : List α) (fh : Option Handle)
    (kwargs : List (String × α)) :
    superclass .baseLockError = some .exception ∧
    superclass .lockError = some .baseLockError ∧
    superclass .alreadyLocked = some .lockError ∧
    superclass .fileToLarge = some .lockError ∧
    (baseLockErrorInit args fh kwargs).fh = fh ∧
    (lockErrorInit args fh kwargs).fh = fh ∧
    (alreadyLockedInit args fh kwargs).fh = fh ∧
    (fileToLargeInit args fh kwargs).fh = fh ∧
    (baseLockErrorInit args none kwargs).fh = none ∧
    (lockErrorInit args fh kwargs).message = some "Failed to acquire lock" ∧
    (alreadyLockedInit args fh kwargs).message = some "File is already locked" ∧
    (fileToLargeInit args fh kwargs).message =
      some "File is too large to lock" :=
  ⟨rfl, rfl, rfl, rfl, rfl, rfl, rfl, rfl, rfl, rfl, rfl, rfl⟩

/-- C9: every constructor in the error taxonomy silently discards all keyword
arguments other than fh: the constructed exception is identical to one built
without them. -/
theorem C9_kwargs_discarded (α : Type) (args : List α) (fh : Option Handle)
    (kwargs : List (String × α)) :
    baseLockErrorInit args fh kwargs = baseLockErrorInit args fh [] ∧
    lockErrorInit args fh kwargs = lockErrorInit args fh [] ∧
    alreadyLockedInit args fh kwargs = alreadyLockedInit args fh [] ∧
    fileToLargeInit args fh kwargs = fileToLargeInit args fh [] :=
  ⟨rfl, rfl, rfl, rfl⟩

/-- C8: the claim says rebinding the module-level LOCKER hook changes the
locking mechanism used by subsequent lock calls.  The code contradicts its
own test suite here: the body of the posix lock function invokes fcntl.flock
directly (portalocker.py line 73) and never reads LOCKER, so with LOCKER
rebound to lockf — and a lockf primitive that would succeed — the call still
goes through the contended flock primitive and fails. -/
theorem C8_locker_rebinding_ignored :
    posixLockWithLocker Mechanism.lockf (fun _ _ => .error EAGAIN)
      (fun _ _ => .ok ()) (.fileObj 3)
      (LockFlags.EXCLUSIVE ||| LockFlags.NON_BLOCKING) =
      .error (.lockException (some (.fileObj 3))) :=
  rfl

/-- C5: for the simple, non-reentrant lock, after a successful acquire a
release followed by a second release never errors: the second release is a
no-op on the already-released state. -/
theorem C5_double_release_never_errors (fd : Nat) (s : SimpleLockState) :
    (simpleLockRelease (simpleLockAcquire fd s)).bind simpleLockRelease =
      .ok ⟨none⟩ :=
  rfl

theorem rlockAcquireN_locked (n d : Nat) (hd : 1 ≤ d) :
    rlockAcquireN n ⟨d, true, true⟩ = ⟨d + n, true, true⟩ := by
  induction n generalizing d with
  | zero => rfl
  | succ m ih =>
    obtain ⟨e, rfl⟩ : ∃ e, d = e + 1 := ⟨d - 1, by omega⟩
    rw [rlockAcquireN]
    rw [show rlockAcquire ⟨e + 1, true, true⟩ = ⟨e + 2, true, true⟩ from rfl]
    rw [ih (e + 2) (by omega)]
    rw [show e + 1 + (m + 1) = e + 2 + m by omega]

theorem rlockAcquireN_init (n : Nat) (hn : 1 ≤ n) :
    rlockAcquireN n rlockInit = ⟨n, true, true⟩ := by
  obtain ⟨m, rfl⟩ : ∃ m, n = m + 1 := ⟨n - 1, by omega⟩
  rw [rlockAcquireN]
  rw [show rlockAcquire rlockInit = ⟨1, true, true⟩ from rfl]
  rw [rlockAcquireN_locked m 1 (by omega)]
  rw [show m + 1 = 1 + m by omega]

theorem rlockReleaseN_locked (k d : Nat) (h : k < d) :
    rlockReleaseN k ⟨d, true, true⟩ = .ok ⟨d - k, true, true⟩ := by
  induction k generalizing d with
  | zero => rfl
  | succ m ih =>
    obtain ⟨e, rfl⟩ : ∃ e, d = e + 2 := ⟨d - 2, by omega⟩
    rw [rlockReleaseN]
    rw [show rlockRelease ⟨e + 2, true, true⟩ = .ok ⟨e + 1, true, true⟩
      from rfl]
    rw [show (Except.ok ⟨e + 1, true, true⟩ : Except PyErr RLockState).bind
      (rlockReleaseN m) = rlockReleaseN m ⟨e + 1, true, true⟩ from rfl]
    rw [ih (e + 1) (by omega)]
    rw [show e + 2 - (m + 1) = e + 1 - m by omega]

/-- C4: for the reentrant counted lock and every n ≥ 1, acquiring n times
from the initial state and then releasing n - 1 times leaves the underlying
file handle open and locked (at depth 1); the nth release closes and unlocks
it; and releasing when the depth counter is 0 raises LockError. -/
theorem C4_rlock_acquire_release (n : Nat) (hn : 1 ≤ n) :
    rlockReleaseN (n - 1) (rlockAcquireN n rlockInit) =
      .ok ⟨1, true, true⟩ ∧
    (rlockReleaseN (n - 1) (rlockAcquireN n rlockInit)).bind rlockRelease =
      .ok ⟨0, false, false⟩ ∧
    rlockRelease rlockInit = .error (.lockException none) := by
  have hrel : rlockReleaseN (n - 1) (rlockAcquireN n rlockInit) =
      .ok ⟨1, true, true⟩ := by
    rw [rlockAcquireN_init n hn, rlockReleaseN_locked (n - 1) n (by omega)]
    congr 2
    omega
  refine ⟨hrel, ?_, rfl⟩
  rw [hrel]
  rfl

/-- C4 witness: the theorem applied at n = 3. -/
theorem C4_witness :
    (1 ≤ 3) ∧
    (rlockReleaseN 2 (rlockAcquireN 3 rlockInit) =
       .ok ⟨1, true, true⟩ ∧
     (rlockReleaseN 2 (rlockAcquireN 3 rlockInit)).bind rlockRelease =
       .ok ⟨0, false, false⟩ ∧
     rlockRelease rlockInit = .error (.lockException none)) :=
  ⟨by decide, C4_rlock_acquire_release 3 (by decide)⟩

/-- C7: with timeout 0, a contended lock (the first primitive attempt fails)
and fail_when_locked false, the acquisition engine makes exactly one attempt
at the primitive, never sleeps, and fails with LockError (timeout
exhausted). -/
theorem C7_timeout_zero_one_attempt (prim : Nat → Bool) (checkInterval : ℚ)
    (hcontended : prim 0 = false) :
    acquireEngine prim false 0 checkInterval = ⟨1, 0, .timedOut⟩ := by
  have hbudget : sleepBudget 0 checkInterval = 0 := by
    unfold sleepBudget
    rw [zero_div, Int.ceil_zero]
    rfl
  unfold acquireEngine
  rw [hbudget]
  unfold engineRun
  rw [hcontended]
  rfl

/-- C7 witness: the theorem applied to an always-contended primitive with
check interval 1. -/
theorem C7_witness :
    acquireEngine (fun _ => false) false 0 1 = ⟨1, 0, .timedOut⟩ :=
  C7_timeout_zero_one_attempt (fun _ => false) 1 rfl

end Portalocker
